import Mathlib

/-!
Verification development for the task-manager client (Supabase todo list with
assignments, due dates, filters and notifications).

The TypeScript source is shallowly embedded: React state updates become pure
functions on explicit state, remote-store calls become `Except String`-valued
parameters supplied by the environment (the store is an opaque collaborator),
and timestamps are integers (epoch milliseconds).  Each definition mirrors one
function of the source (`TodoList`, `UserSelector`, `Notification`,
`notificationUtils`).
-/

/-! ## Data model (lib/schema.ts) -/

/-- Row of the `todos` table (`Database.public.Tables.todos.Row`).
`is_complete` and `task` are nullable in the schema, `due_date` is a nullable
timestamp modelled as epoch milliseconds. -/
structure Todo where
  id : Nat
  inserted_at : Int
  is_complete : Option Bool
  task : Option String
  user_id : String
  assigned_to : Option String
  due_date : Option Int
  created_by : String
deriving DecidableEq

/-- Row of the `notifications` table. -/
structure NotificationRow where
  id : Nat
  user_id : String
  task_id : Nat
  message : String
  is_read : Bool
  created_at : Int
deriving DecidableEq

/-- User profile returned by the `/api/users` endpoint. -/
structure UserProfile where
  id : String
  email : String
  name : Option String
deriving DecidableEq

/-- The acting (authenticated) user: `user.id` and `user.email` from
`useUser()`; `email` is nullable in the auth model. -/
structure Actor where
  id : String
  email : Option String
deriving DecidableEq

/-! ## Task synchronizer: change-feed handler in `TodoList`

The two `postgres_changes` subscriptions (scope `user_id=eq.<me>` and scope
`assigned_to=eq.<me>`) run the same handler body; `applyRemoteEvent` embeds
that body: INSERT prepends `payload.new`, UPDATE maps over the collection
replacing the row with matching id, DELETE removes the row with matching id. -/

/-- Change-feed event payload. -/
inductive TodoEvent where
  | inserted (row : Todo)
  | updated (row : Todo)
  | deleted (id : Nat)
deriving DecidableEq

/-- Embedding of the subscription callback of `TodoList`:
INSERT does `setTodos(prev => [payload.new, ...prev])`,
UPDATE does `prev.map(todo => todo.id === payload.new.id ? payload.new : todo)`,
DELETE does `prev.filter(todo => todo.id !== payload.old.id)`. -/
def applyRemoteEvent (todos : List Todo) : TodoEvent → List Todo
  | .inserted row => row :: todos
  | .updated row => todos.map (fun t => if t.id = row.id then row else t)
  | .deleted i => todos.filter (fun t => t.id != i)

/-- The collection has no two entries with the same id. -/
def NodupIds (todos : List Todo) : Prop := (todos.map (fun t => t.id)).Nodup

instance (todos : List Todo) : Decidable (NodupIds todos) := by
  unfold NodupIds
  exact List.nodupDecidable _

/-- Concrete task used in counterexamples. -/
def todoA : Todo :=
  ⟨1, 0, some false, some "first version", "alice", none, none, "alice"⟩

/-- A second row carrying the same id (e.g. the echo of an insert delivered on
both subscription scopes, or an id already present locally). -/
def todoA2 : Todo := { todoA with task := some "second version" }

/-! ## UserSelector (assignment candidates) -/

/-- Embedding of the `fetchUsers` body of `UserSelector`: the directory
response is filtered to drop the current user and re-projected field by field.
Source: `data.users.filter(user => user.id !== currentUserId).map(...)`. -/
def formattedUsers (users : List UserProfile) (currentUserId : String) :
    List UserProfile :=
  (users.filter (fun u => u.id != currentUserId)).map
    (fun u => ⟨u.id, u.email, u.name⟩)

/-! ## Filter engine (`TodoList` filter effect)

`new Date(x).setHours(0,0,0,0)` strips the time of day; with timestamps as
epoch milliseconds under a fixed timezone this is flooring to a multiple of
86400000. -/

/-- Milliseconds in a calendar day. -/
def msPerDay : Int := 86400000

/-- Embedding of `setHours(0, 0, 0, 0)`: floor to the start of the day. -/
def startOfDay (t : Int) : Int := msPerDay * Int.ediv t msPerDay

/-- JS `!todo.is_complete` on a `boolean | null` field: true for `null` and
`false`, false for `true`. -/
def notCompleted (t : Todo) : Bool := !(t.is_complete.getD false)

/-- Filter mode (`FilterType` of `TaskFilter`). -/
inductive FilterType where
  | all
  | assignedToMe
  | createdByMe
  | overdue
  | dueToday
deriving DecidableEq

/-- Embedding of the filter effect of `TodoList` (the `switch (currentFilter)`
body), as a pure function of the collection, the mode, the viewer and the
reference time.  `overdue`: due date (day-floored) strictly before today and
not complete; `dueToday`: day-floored due date equal to today and not
complete; tasks with `due_date` null match neither. -/
def filterTodos (todos : List Todo) (f : FilterType) (viewerId : String)
    (now : Int) : List Todo :=
  let today := startOfDay now
  match f with
  | .all => todos
  | .assignedToMe => todos.filter (fun t => t.assigned_to == some viewerId)
  | .createdByMe => todos.filter (fun t => t.user_id == viewerId)
  | .overdue => todos.filter (fun t =>
      match t.due_date with
      | none => false
      | some d => decide (startOfDay d < today) && notCompleted t)
  | .dueToday => todos.filter (fun t =>
      match t.due_date with
      | none => false
      | some d => (startOfDay d == today) && notCompleted t)

/-- Concrete task due at epoch day 0, used to witness the filter claims. -/
def overdueTodo : Todo :=
  ⟨11, 0, some false, some "pay rent", "alice", none, some 0, "alice"⟩

/-! ## String helpers: `taskText.trim()` and `error.message.includes(...)` -/

/-- Embedding of JS `String.prototype.trim`: drop leading and trailing
whitespace. -/
def trimList (s : List Char) : List Char :=
  ((s.dropWhile Char.isWhitespace).reverse.dropWhile Char.isWhitespace).reverse

/-- Whether the first list starts with the second. -/
def startsWithChars : List Char → List Char → Bool
  | _, [] => true
  | [], _ :: _ => false
  | c :: cs, d :: ds => c == d && startsWithChars cs ds

/-- Whether `needle` occurs contiguously inside `haystack`. -/
def hasSub (haystack needle : List Char) : Bool :=
  match haystack with
  | [] => needle.isEmpty
  | c :: rest => startsWithChars (c :: rest) needle || hasSub rest needle

/-- The substring which `addTodo` and `updateTodoAssignment` look for in the
store error message to classify a referential-integrity failure. -/
def fkNeedle : String := "violates foreign key constraint"

/-- Embedding of `error.message.includes('violates foreign key constraint')`. -/
def includesFK (msg : String) : Bool := hasSub msg.toList fkNeedle.toList

/-! ## Notification dispatcher (`lib/notificationUtils.ts`) -/

/-- Insert payload sent to the `notifications` table. -/
structure NotificationInsert where
  user_id : String
  task_id : Nat
  message : String
  is_read : Bool
deriving DecidableEq

/-- Embedding of `createTaskAssignmentNotification`: builds the single row
`{user_id: assigneeId, task_id: taskId, message, is_read: false}` with
message `<assignerEmail> assigned you a task: "<taskTitle>"`.  Its own store
failure is caught and logged inside the function, so dispatch never throws. -/
def createTaskAssignmentNotification (taskId : Nat) (assigneeId : String)
    (taskTitle : String) (assignerEmail : String) : NotificationInsert :=
  { user_id := assigneeId
    task_id := taskId
    message := assignerEmail ++ " assigned you a task: \"" ++ taskTitle ++ "\""
    is_read := false }

/-- The dispatch guard shared by `addTodo` and `updateTodoAssignment`:
`if (result && result.assigned_to && result.assigned_to !== user.id)` then one
notification is created from the persisted row, else none. -/
def assignmentDispatch (actor : Actor) (row : Todo) : List NotificationInsert :=
  match row.assigned_to with
  | some a =>
      if a ≠ actor.id then
        [createTaskAssignmentNotification row.id a (row.task.getD "Untitled task")
          (actor.email.getD "A user")]
      else []
  | none => []

/-! ## addTodo (`TodoList`) -/

/-- Insert payload sent to the `todos` table by `addTodo` (the `newTodo`
object literal; `fallbackTodo` is the same with `assigned_to: null`). -/
structure TodoInsertReq where
  task : String
  user_id : String
  assigned_to : Option String
  due_date : Option Int
  created_by : String
deriving DecidableEq

/-- Observable outcome of one `addTodo` call: the persisted row (if any), the
notifications dispatched, the `errorText` state set, and the insert requests
issued to the store in order. -/
structure AddTodoResult where
  created : Option Todo
  dispatched : List NotificationInsert
  errorText : Option String
  requests : List TodoInsertReq
deriving DecidableEq

/-- The warning `addTodo` and `updateTodoAssignment` surface on a
foreign-key violation. -/
def fkWarning : String := "Could not assign task: user not found in database"

/-- Embedding of `addTodo`.  The store is opaque: `firstInsert` is its answer
to the first insert request and `fallbackInsert` its answer to the fallback
request (consulted only when the first answer is a foreign-key error and an
assignee was requested).  Control flow mirrors the source: trim, reject empty,
build `newTodo`, insert; on an error message containing the foreign-key
substring retry once with `assigned_to: null` and set the warning; any other
error is caught and stored in `errorText`; on success run the dispatch guard
on the returned row. -/
def addTodo (actor : Actor) (taskText : String)
    (newTaskAssignedTo : Option String) (newTaskDueDate : Option Int)
    (firstInsert fallbackInsert : Except String Todo) : AddTodoResult :=
  let task : String := String.mk (trimList taskText.toList)
  if task.length = 0 then
    { created := none, dispatched := [], errorText := none, requests := [] }
  else
    let newTodo : TodoInsertReq :=
      ⟨task, actor.id, newTaskAssignedTo, newTaskDueDate, actor.id⟩
    match newTaskAssignedTo with
    | some _ =>
        match firstInsert with
        | .error msg =>
            if includesFK msg then
              let fallbackTodo : TodoInsertReq := { newTodo with assigned_to := none }
              match fallbackInsert with
              | .error msg2 =>
                  { created := none, dispatched := [], errorText := some msg2,
                    requests := [newTodo, fallbackTodo] }
              | .ok row =>
                  { created := some row, dispatched := assignmentDispatch actor row,
                    errorText := some fkWarning, requests := [newTodo, fallbackTodo] }
            else
              { created := none, dispatched := [], errorText := some msg,
                requests := [newTodo] }
        | .ok row =>
            { created := some row, dispatched := assignmentDispatch actor row,
              errorText := none, requests := [newTodo] }
    | none =>
        match firstInsert with
        | .error msg =>
            { created := none, dispatched := [], errorText := some msg,
              requests := [newTodo] }
        | .ok row =>
            { created := some row, dispatched := assignmentDispatch actor row,
              errorText := none, requests := [newTodo] }

/-! ## updateTodoAssignment (`TodoList`) -/

/-- Observable outcome of one `updateTodoAssignment` call. -/
structure UpdateAssignResult where
  newTodos : List Todo
  dispatched : List NotificationInsert
  errorText : Option String
deriving DecidableEq

/-- Embedding of `updateTodoAssignment(todo, assignedTo)`.  `updateResult` is
the store's answer to the row update.  On a foreign-key error message the
function sets the warning and returns (no local change, no dispatch); any
other error is caught into `errorText`; on success the dispatch guard runs on
the returned row and the local collection is patched by id. -/
def updateTodoAssignment (actor : Actor) (todos : List Todo) (todo : Todo)
    (assignedTo : Option String) (updateResult : Except String Todo) :
    UpdateAssignResult :=
  match updateResult with
  | .error msg =>
      if includesFK msg then
        { newTodos := todos, dispatched := [], errorText := some fkWarning }
      else
        { newTodos := todos, dispatched := [], errorText := some msg }
  | .ok data =>
      { newTodos := todos.map
          (fun t => if t.id = todo.id then { t with assigned_to := assignedTo } else t)
        dispatched := assignmentDispatch actor data
        errorText := none }

/-- Concrete actor for the counterexamples and witnesses. -/
def actorAlice : Actor := ⟨"alice", some "alice@example.com"⟩

/-- Concrete task already assigned to bob. -/
def taskAssignedToBob : Todo :=
  ⟨3, 0, some false, some "write report", "alice", some "bob", none, "alice"⟩

/-! ## Notification feed (`Notification` component)

Local state is the pair of React states `notifications` and `unreadCount`. -/

/-- Local state of the `Notification` component. -/
structure FeedState where
  notifications : List NotificationRow
  unreadCount : Nat
deriving DecidableEq

/-- Descending-by-creation-time comparison used by the store query
`order('created_at', { ascending: false })`. -/
def notifGE (a b : NotificationRow) : Prop := b.created_at ≤ a.created_at

instance : DecidableRel notifGE :=
  fun a b => inferInstanceAs (Decidable (b.created_at ≤ a.created_at))

instance : IsTotal NotificationRow notifGE :=
  ⟨fun a b => le_total b.created_at a.created_at⟩

instance : IsTrans NotificationRow notifGE :=
  ⟨fun _ _ _ h1 h2 => le_trans h2 h1⟩

/-- Contract of the store query issued by `fetchNotifications`:
`eq('user_id', userId).order('created_at', desc).limit(20)` — the recipient's
rows sorted descending by creation time, truncated to 20. -/
def storeSelectNotifications (rows : List NotificationRow) (userId : String) :
    List NotificationRow :=
  (List.insertionSort notifGE (rows.filter (fun n => n.user_id == userId))).take 20

/-- Number of rows in a local view whose read flag is false
(`data.filter(n => !n.is_read).length`). -/
def unreadOf (l : List NotificationRow) : Nat :=
  (l.filter (fun n => !n.is_read)).length

/-- Embedding of `fetchNotifications`: store the query result and set
`unreadCount` to the number of unread rows in it. -/
def fetchNotifications (rows : List NotificationRow) (userId : String) :
    FeedState :=
  let data := storeSelectNotifications rows userId
  ⟨data, unreadOf data⟩

/-- Embedding of the INSERT subscription handler: prepend `payload.new` and
increment the counter (`setUnreadCount(prev => prev + 1)`). -/
def applyInsertEvent (s : FeedState) (n : NotificationRow) : FeedState :=
  ⟨n :: s.notifications, s.unreadCount + 1⟩

/-- Flip the read flag of a row. -/
def setRead (n : NotificationRow) : NotificationRow := { n with is_read := true }

/-- Embedding of `markAsRead(id)`: `storeOk` is whether the store update
succeeded.  On success the row with matching id is flipped to read and the
counter does `Math.max(0, prev - 1)` — truncated subtraction on `Nat`.
On failure nothing local changes. -/
def markAsRead (s : FeedState) (id : Nat) (storeOk : Bool) : FeedState :=
  if storeOk then
    ⟨s.notifications.map (fun n => if n.id = id then setRead n else n),
      s.unreadCount - 1⟩
  else s

/-- Embedding of `markAllAsRead`: on store success every local row is flipped
to read and the counter is set to 0; on failure nothing local changes. -/
def markAllAsRead (s : FeedState) (storeOk : Bool) : FeedState :=
  if storeOk then ⟨s.notifications.map setRead, 0⟩ else s

/-- The cached unread counter agrees with the read flags of the local view. -/
def FeedInv (s : FeedState) : Prop := s.unreadCount = unreadOf s.notifications

instance (s : FeedState) : Decidable (FeedInv s) := by
  unfold FeedInv
  exact Nat.decEq _ _

/-- The local view is sorted descending by creation time. -/
def SortedDesc (l : List NotificationRow) : Prop := l.Sorted notifGE

/-- Twenty store rows for alice, creation times 0..19. -/
def manyRows : List NotificationRow :=
  (List.range 20).map (fun i => ⟨i, "alice", i, "task note", false, (i : Int)⟩)

/-- A notification newer than everything in `manyRows`. -/
def newestNotif : NotificationRow := ⟨100, "alice", 100, "task note", false, 100⟩

/-- Concrete unread notification used in feed witnesses. -/
def sampleNotif : NotificationRow := ⟨5, "alice", 9, "ping", false, 50⟩

/-! ## Concrete users for the selector witnesses -/

/-- Directory entry that matches the current user. -/
def userU : UserProfile := ⟨"u1", "u1@example.com", none⟩

/-- Directory entry distinct from the current user. -/
def userV : UserProfile := ⟨"u2", "u2@example.com", some "Vee"⟩

/-! ## Claim C1: change-feed insert of an already-present id -/

/-- C1: the claim fails on the code — the INSERT branch of the subscription
handler prepends `payload.new` unconditionally instead of replacing a matching
entry.  Starting from a duplicate-free collection holding id 1, an `inserted`
event carrying id 1 yields a collection with two entries for id 1. -/
theorem insert_event_duplicates_existing_id :
    NodupIds [todoA] ∧ todoA2.id = todoA.id ∧
      applyRemoteEvent [todoA] (.inserted todoA2) = [todoA2, todoA] ∧
      ¬ NodupIds (applyRemoteEvent [todoA] (.inserted todoA2)) := by
  refine ⟨by decide, rfl, rfl, by decide⟩

/-- C1 (amended): an `inserted` event always prepends its row — so an event
for an id already present produces a duplicate rather than a replacement —
while an `updated` event leaves the list of ids unchanged and a `deleted`
event preserves distinctness of ids. -/
theorem applyRemoteEvent_amended :
    (∀ todos row, applyRemoteEvent todos (.inserted row) = row :: todos) ∧
    (∀ todos row, (applyRemoteEvent todos (.updated row)).map (fun t => t.id)
        = todos.map (fun t => t.id)) ∧
    (∀ todos i, NodupIds todos → NodupIds (applyRemoteEvent todos (.deleted i))) := by
  refine ⟨fun todos row => rfl, ?_, ?_⟩
  · intro todos row
    induction todos with
    | nil => rfl
    | cons t rest ih =>
        simp only [applyRemoteEvent, List.map_cons] at *
        by_cases h : t.id = row.id
        · simp [h, ih]
        · simp [h, ih]
  · intro todos i h
    exact List.Nodup.sublist
      (List.Sublist.map (fun t => t.id) (List.filter_sublist todos)) h

/-- Witness for the amended C1 theorem at a concrete input. -/
theorem applyRemoteEvent_amended_witness :
    NodupIds (applyRemoteEvent [todoA] (.deleted 1)) :=
  applyRemoteEvent_amended.2.2 [todoA] 1 (by decide)

/-! ## Claim C10: the selector never offers the current user -/

/-- C10: every assignment candidate produced by the `UserSelector` fetch has
an id different from the current user's id, so self-assignment cannot be
selected through this interface. -/
theorem formattedUsers_excludes_current (users : List UserProfile)
    (currentUserId : String) (u : UserProfile)
    (hu : u ∈ formattedUsers users currentUserId) : u.id ≠ currentUserId := by
  rcases List.mem_map.mp hu with ⟨v, hv, hvu⟩
  rcases List.mem_filter.mp hv with ⟨-, hne⟩
  cases hvu
  simpa using hne

/-- Witness for C10 at a concrete directory response. -/
theorem formattedUsers_excludes_current_witness : userV.id ≠ "u1" :=
  formattedUsers_excludes_current [userU, userV] "u1" userV (by decide)

/-! ## Claims C8 and C9: filter engine -/

/-- C9: the `overdue` filter never returns a task whose due date is null or
whose completion flag is true. -/
theorem filterTodos_overdue_excludes (todos : List Todo) (viewerId : String)
    (now : Int) (t : Todo)
    (ht : t ∈ filterTodos todos .overdue viewerId now) :
    t.due_date ≠ none ∧ t.is_complete ≠ some true := by
  simp only [filterTodos] at ht
  rcases List.mem_filter.mp ht with ⟨-, hp⟩
  cases hd : t.due_date with
  | none => rw [hd] at hp; simp at hp
  | some d =>
      rw [hd] at hp
      simp only [Bool.and_eq_true] at hp
      refine ⟨by simp [hd], fun hc => ?_⟩
      have h2 := hp.2
      rw [notCompleted, hc] at h2
      simp at h2

/-- Witness for C9 at a concrete task and reference time. -/
theorem filterTodos_overdue_excludes_witness :
    overdueTodo.due_date ≠ none ∧ overdueTodo.is_complete ≠ some true :=
  filterTodos_overdue_excludes [overdueTodo] "alice" (2 * 86400000) overdueTodo
    (by decide)

/-- C8: for a fixed task set and reference time, the `overdue` view and the
`dueToday` view are disjoint — a task in the first is never in the second. -/
theorem filterTodos_overdue_dueToday_disjoint (todos : List Todo)
    (viewerId : String) (now : Int) (t : Todo)
    (h1 : t ∈ filterTodos todos .overdue viewerId now) :
    t ∉ filterTodos todos .dueToday viewerId now := by
  intro h2
  simp only [filterTodos] at h1 h2
  rcases List.mem_filter.mp h1 with ⟨-, hp1⟩
  rcases List.mem_filter.mp h2 with ⟨-, hp2⟩
  cases hd : t.due_date with
  | none => rw [hd] at hp1; simp at hp1
  | some d =>
      rw [hd] at hp1 hp2
      simp only [Bool.and_eq_true, decide_eq_true_eq, beq_iff_eq] at hp1 hp2
      exact absurd (hp2.1 ▸ hp1.1) (lt_irrefl _)

/-- Witness for C8 at a concrete task and reference time. -/
theorem filterTodos_overdue_dueToday_disjoint_witness :
    overdueTodo ∉ filterTodos [overdueTodo] .dueToday "alice" (2 * 86400000) :=
  filterTodos_overdue_dueToday_disjoint [overdueTodo] "alice" (2 * 86400000)
    overdueTodo (by decide)

/-! ## Claim C2: notification on reassignment -/

/-- C2: the claim is right and the code is wrong.  The dispatch guard of
`updateTodoAssignment` compares the returned assignee only against the acting
user (`data.assigned_to !== user.id`), never against the task's previous
assignee, although its own comment says a notification is created only when
the task is assigned to someone new.  Reassigning a task already assigned to
bob back to bob (actor alice, store success echoing the unchanged row)
dispatches one notification to bob, where the claim requires none. -/
theorem updateTodoAssignment_same_assignee_dispatches :
    (updateTodoAssignment actorAlice [taskAssignedToBob] taskAssignedToBob
        (some "bob") (.ok taskAssignedToBob)).dispatched =
      [createTaskAssignmentNotification 3 "bob" "write report"
        "alice@example.com"] := by
  decide

/-! ## Claim C3: foreign-key fallback of addTodo -/

/-- C3: when the requested assignee is rejected by the store with a
foreign-key violation, `addTodo` issues exactly one retry whose payload clears
`assigned_to`, the task is created from the fallback result, the non-fatal
warning is stored in `errorText` (no unhandled error), and no notification is
dispatched (an honest fallback row has no assignee). -/
theorem addTodo_fk_fallback (actor : Actor) (taskText : String) (a : String)
    (due : Option Int) (msg : String) (row : Todo)
    (htask : (trimList taskText.toList).length ≠ 0)
    (hfk : includesFK msg = true)
    (hrow : row.assigned_to = none) :
    (addTodo actor taskText (some a) due (.error msg) (.ok row)).created
        = some row ∧
    (addTodo actor taskText (some a) due (.error msg) (.ok row)).dispatched
        = [] ∧
    (addTodo actor taskText (some a) due (.error msg) (.ok row)).errorText
        = some fkWarning ∧
    (addTodo actor taskText (some a) due (.error msg) (.ok row)).requests =
      [⟨String.mk (trimList taskText.toList), actor.id, some a, due, actor.id⟩,
       ⟨String.mk (trimList taskText.toList), actor.id, none, due, actor.id⟩] := by
  have hnil : ¬ trimList taskText.data = [] := by
    intro hx
    apply htask
    show (trimList taskText.data).length = 0
    rw [hx]
    rfl
  simp [addTodo, hnil, hfk, assignmentDispatch, hrow]

/-- Concrete fallback row (as the store would return it: no assignee). -/
def fallbackRow : Todo :=
  ⟨21, 8, none, some "Buy milk", "alice", none, none, "alice"⟩

/-- Concrete Postgres foreign-key error message. -/
def fkMsg : String :=
  "insert or update on table \"todos\" violates foreign key constraint \"todos_assigned_to_fkey\""

/-- Witness for C3 at the concrete ghost-user scenario of the spec. -/
theorem addTodo_fk_fallback_witness :
    (addTodo actorAlice "Buy milk" (some "ghost-user") none (.error fkMsg)
        (.ok fallbackRow)).created = some fallbackRow ∧
    (addTodo actorAlice "Buy milk" (some "ghost-user") none (.error fkMsg)
        (.ok fallbackRow)).dispatched = [] ∧
    (addTodo actorAlice "Buy milk" (some "ghost-user") none (.error fkMsg)
        (.ok fallbackRow)).errorText = some fkWarning ∧
    (addTodo actorAlice "Buy milk" (some "ghost-user") none (.error fkMsg)
        (.ok fallbackRow)).requests =
      [⟨String.mk (trimList "Buy milk".toList), actorAlice.id, some "ghost-user",
          none, actorAlice.id⟩,
       ⟨String.mk (trimList "Buy milk".toList), actorAlice.id, none, none,
          actorAlice.id⟩] :=
  addTodo_fk_fallback actorAlice "Buy milk" "ghost-user" none fkMsg fallbackRow
    (by decide) (by decide) rfl

/-! ## Claim C6: input validation of addTodo -/

/-- Concrete store row for a short description. -/
def okRow : Todo := ⟨7, 5, some false, some "abc", "alice", none, none, "alice"⟩

/-- C6: the claim fails — the only client-side validation is
`if (task.length)`, so a trimmed description of 3 characters (shorter than the
claimed 4-character minimum) is not rejected: an insert request reaches the
store and, when the store accepts, the task is created. -/
theorem addTodo_short_description_not_rejected :
    (addTodo actorAlice "abc" none none (.ok okRow) (.ok okRow)).requests.length
        = 1 ∧
    (addTodo actorAlice "abc" none none (.ok okRow) (.ok okRow)).created
        = some okRow := by
  decide

/-- C6 (amended): a description that trims to the empty string is rejected
before any remote call — no request, no task, no dispatch, no error — while
any description that trims to a non-empty string (even one shorter than 4
characters) always issues at least one insert request to the store. -/
theorem addTodo_empty_only_validation :
    (∀ actor taskText a due f fb, (trimList taskText.toList).length = 0 →
      addTodo actor taskText a due f fb = ⟨none, [], none, []⟩) ∧
    (∀ actor taskText a due f fb, (trimList taskText.toList).length ≠ 0 →
      (addTodo actor taskText a due f fb).requests ≠ []) := by
  constructor
  · intro actor taskText a due f fb h
    have hnl : trimList taskText.data = [] := List.length_eq_zero.mp h
    simp [addTodo, hnl]
  · intro actor taskText a due f fb h
    have hnil : ¬ trimList taskText.data = [] := by
      intro hx
      apply h
      show (trimList taskText.data).length = 0
      rw [hx]
      rfl
    cases a with
    | none =>
        cases f with
        | error msg => simp [addTodo, hnil]
        | ok row => simp [addTodo, hnil]
    | some x =>
        cases f with
        | error msg =>
            by_cases hk : includesFK msg = true
            · cases fb with
              | error m2 => simp [addTodo, hnil, hk]
              | ok row => simp [addTodo, hnil, hk]
            · simp [addTodo, hnil, hk]
        | ok row => simp [addTodo, hnil]

/-- Witness for the amended C6 theorem: a whitespace-only description is a
no-op, a 2-character description still reaches the store. -/
theorem addTodo_empty_only_validation_witness :
    addTodo actorAlice "   " none none (.ok okRow) (.ok okRow)
        = ⟨none, [], none, []⟩ ∧
    (addTodo actorAlice "ab" none none (.ok okRow) (.ok okRow)).requests ≠ [] :=
  ⟨addTodo_empty_only_validation.1 actorAlice "   " none none (.ok okRow)
      (.ok okRow) (by decide),
   addTodo_empty_only_validation.2 actorAlice "ab" none none (.ok okRow)
      (.ok okRow) (by decide)⟩

/-! ## Claims C4, C5, C7: notification feed -/

/-- Helper: flipping every row to read leaves no unread rows. -/
lemma unreadOf_map_setRead (l : List NotificationRow) :
    unreadOf (l.map setRead) = 0 := by
  induction l with
  | nil => rfl
  | cons n rest ih => simp [unreadOf, setRead, List.filter_cons, ih]

/-- Helper: flipping the rows with a given id to read removes exactly the
unread rows with that id from the unread count. -/
lemma unreadOf_markOne (id : Nat) (l : List NotificationRow) :
    unreadOf (l.map (fun n => if n.id = id then setRead n else n)) +
      (l.filter (fun n => n.id == id && !n.is_read)).length = unreadOf l := by
  induction l with
  | nil => rfl
  | cons n rest ih =>
      by_cases hid : n.id = id
      · by_cases hr : n.is_read = true
        · simp [unreadOf, List.filter_cons, hid, hr, setRead] at ih ⊢
          omega
        · simp only [Bool.not_eq_true] at hr
          simp [unreadOf, List.filter_cons, hid, hr, setRead] at ih ⊢
          omega
      · by_cases hr : n.is_read = true
        · simp [unreadOf, List.filter_cons, hid, hr, setRead] at ih ⊢
          omega
        · simp only [Bool.not_eq_true] at hr
          simp [unreadOf, List.filter_cons, hid, hr, setRead] at ih ⊢
          omega

/-- C4: after each feed operation the cached unread counter equals the number
of rows in the local view whose read flag is false.  The initial load
establishes the invariant unconditionally; a live insert preserves it for rows
delivered unread — every notification this system dispatches is created with
`is_read: false`; `markAsRead` preserves it when invoked on an id with exactly
one unread row in view — the component renders the mark-read button only for
an unread listed row; `markAllAsRead` preserves it unconditionally, on store
success and failure alike. -/
theorem feed_unread_invariant :
    (∀ rows userId, FeedInv (fetchNotifications rows userId)) ∧
    (∀ s n, FeedInv s → n.is_read = false → FeedInv (applyInsertEvent s n)) ∧
    (∀ s id ok, FeedInv s →
      (s.notifications.filter (fun n => n.id == id && !n.is_read)).length = 1 →
      FeedInv (markAsRead s id ok)) ∧
    (∀ s ok, FeedInv s → FeedInv (markAllAsRead s ok)) := by
  refine ⟨fun rows userId => rfl, ?_, ?_, ?_⟩
  · intro s n hInv hn
    show s.unreadCount + 1 = unreadOf (n :: s.notifications)
    simp [unreadOf, List.filter_cons, hn] at hInv ⊢
    simpa [unreadOf] using hInv
  · intro s id ok hInv hone
    cases ok with
    | false => exact hInv
    | true =>
        have hm := unreadOf_markOne id s.notifications
        rw [hone] at hm
        show s.unreadCount - 1
            = unreadOf (s.notifications.map (fun n => if n.id = id then setRead n else n))
        rw [FeedInv] at hInv
        omega
  · intro s ok hInv
    cases ok with
    | false => exact hInv
    | true =>
        show (0 : Nat) = unreadOf (s.notifications.map setRead)
        rw [unreadOf_map_setRead]

/-- Witness for C4: marking the single unread listed notification as read
keeps the counter in sync. -/
theorem feed_unread_invariant_witness :
    FeedInv (markAsRead ⟨[sampleNotif], 1⟩ 5 true) :=
  feed_unread_invariant.2.2.1 ⟨[sampleNotif], 1⟩ 5 true (by decide) (by decide)

/-- C5: `markAllAsRead` is atomic in its user-visible effect: on store success
the unread counter is exactly 0 and every row of the view has its read flag
set to true (the view is the pointwise flip of the old one, so all N rows are
covered); on store failure every flag and the counter are unchanged. -/
theorem markAllAsRead_atomic (s : FeedState) :
    (markAllAsRead s true).unreadCount = 0 ∧
    (markAllAsRead s true).notifications = s.notifications.map setRead ∧
    (∀ n, n ∈ (markAllAsRead s true).notifications → n.is_read = true) ∧
    markAllAsRead s false = s := by
  refine ⟨rfl, rfl, ?_, rfl⟩
  intro n hn
  rcases List.mem_map.mp hn with ⟨m, -, rfl⟩
  rfl

/-- Witness for C5: the flipped sample notification is read. -/
theorem markAllAsRead_atomic_witness : (setRead sampleNotif).is_read = true :=
  (markAllAsRead_atomic ⟨[sampleNotif], 1⟩).2.2.1 (setRead sampleNotif)
    (by decide)

/-- C7: the claim fails — the 20-row cap is applied only by the snapshot
query; the live INSERT handler prepends without re-capping, so one insert
event on top of a full snapshot of 20 rows leaves 21 rows in the local view. -/
theorem feed_view_exceeds_cap :
    20 < (applyInsertEvent (fetchNotifications manyRows "alice")
        newestNotif).notifications.length := by
  decide

/-- C7 (amended): the initial snapshot is ordered descending by creation time
and holds at most 20 rows; a live INSERT event prepends, which preserves the
descending order whenever the delivered row is at least as recent as every row
in view, and grows the view by exactly one row — the 20 cap is not re-applied
after inserts, so the merged view can exceed 20 entries. -/
theorem feed_view_order_amended (rows : List NotificationRow) (userId : String)
    (s : FeedState) (n : NotificationRow) (hs : SortedDesc s.notifications)
    (hn : ∀ m ∈ s.notifications, m.created_at ≤ n.created_at) :
    (SortedDesc (fetchNotifications rows userId).notifications ∧
      (fetchNotifications rows userId).notifications.length ≤ 20) ∧
    (SortedDesc (applyInsertEvent s n).notifications ∧
      (applyInsertEvent s n).notifications.length
        = s.notifications.length + 1) := by
  refine ⟨⟨?_, ?_⟩, ?_, rfl⟩
  · exact List.Pairwise.sublist (List.take_sublist _ _)
      (List.sorted_insertionSort notifGE _)
  · exact List.length_take_le _ _
  · exact List.sorted_cons.mpr ⟨hn, hs⟩

/-- Witness for the amended C7 theorem at concrete inputs. -/
theorem feed_view_order_amended_witness :
    (SortedDesc (fetchNotifications manyRows "alice").notifications ∧
      (fetchNotifications manyRows "alice").notifications.length ≤ 20) ∧
    (SortedDesc (applyInsertEvent ⟨[sampleNotif], 1⟩ newestNotif).notifications ∧
      (applyInsertEvent ⟨[sampleNotif], 1⟩ newestNotif).notifications.length
        = [sampleNotif].length + 1) :=
  feed_view_order_amended manyRows "alice" ⟨[sampleNotif], 1⟩ newestNotif
    (List.sorted_singleton sampleNotif) (by decide)
